import Mathlib

/-!
Shallow embedding of `src/main.js` (BlockCraft Adventure 2.0, main game
controller, class `BlockCraftAdventure`).

Modelling conventions:
* Machine state is the record `Game`, mirroring the fields set in the
  constructor (`state`, `renderer`, `world`, `player`, `workers`, `lastTime`,
  `frameCount`, `fps`, `fpsUpdateTime`, plus the `isGameRunning` flag that the
  constructor leaves undefined, modelled as initially `false`).
* Collaborators (Renderer, World, Player, Settings, UI, Audio,
  MultiplayerManager, StorageManager, Worker) are external; only the calls the
  controller makes on them matter.  Calls with observable effects are emitted
  as a trace of `Ev` values; results the controller consumes (clock readings,
  spawn points, success/failure of constructions, storage outcomes) are read
  from an oracle record `Env`.
* JavaScript `performance.now()` / `Date.now()` readings are naturals
  (milliseconds).  The comparison `currentTime - this.fpsUpdateTime >= 1000`
  is modelled with truncated natural subtraction, which agrees with the
  JavaScript comparison for all natural inputs.
* A thrown `TypeError` (null dereference, e.g. `this.world.receiveChunk` when
  `this.world` is null) is modelled as `Except.error Fault.nullWorld`.
-/

/-- GameState enum of `src/main.js` lines 7-13. -/
inductive GameState where
  | loading
  | menu
  | singlePlayer
  | multiplayer
  | paused
deriving DecidableEq, Repr

/-- Snapshot returned by `world.save()`; field shapes are collaborator-owned,
only the pieces the controller reads back in `loadGame` (`name`, `seed`,
`type`) are modelled. -/
structure WorldSnapshot where
  name : Option String
  seed : Option Int
  wtype : String
deriving DecidableEq, Repr

/-- Snapshot returned by `player.save()`. -/
structure PlayerSnapshot where
  x : Int
  y : Int
  z : Int
deriving DecidableEq, Repr

/-- Snapshot returned by `settings.save()`. -/
structure SettingsSnapshot where
  showFPS : Bool
deriving DecidableEq, Repr

/-- The composite record built by `saveGame` (`src/main.js` lines 398-403). -/
structure SaveRecord where
  world : WorldSnapshot
  player : PlayerSnapshot
  settings : SettingsSnapshot
  timestamp : Nat
deriving DecidableEq, Repr

/-- Settings collaborator; only the `showFPS` option is read by the
controller (`this.settings.get('showFPS')`). -/
structure Settings where
  showFPS : Bool
deriving DecidableEq, Repr

def Settings.save (s : Settings) : SettingsSnapshot := ⟨s.showFPS⟩

def Settings.load (_s : Settings) (snap : SettingsSnapshot) : Settings :=
  ⟨snap.showFPS⟩

/-- World collaborator as the controller sees it: constructor arguments are
retained, the spawn point is the collaborator-chosen value fixed at
construction, `update`/`receiveChunk`/`receivePhysicsUpdate`/`receivePath`
record the calls. -/
structure World where
  worldSize : Nat × Nat × Nat
  chunkSize : Nat
  seed : Option Int
  worldType : String
  generationChannel : Option String
  spawnPoint : Int × Int × Int
  playerSet : Bool
  multiplayerSet : Bool
  chunks : List Nat
  physics : List Nat
  paths : List Nat
  ticks : Nat
deriving DecidableEq, Repr

def World.construct (size : Nat × Nat × Nat) (chunk : Nat) (seed : Option Int)
    (wtype : String) (chan : Option String) (spawn : Int × Int × Int) : World :=
  ⟨size, chunk, seed, wtype, chan, spawn, false, false, [], [], [], 0⟩

def World.getSpawnPoint (w : World) : Int × Int × Int := w.spawnPoint

def World.setPlayer (w : World) : World := { w with playerSet := true }

def World.setMultiplayer (w : World) : World := { w with multiplayerSet := true }

def World.update (w : World) : World := { w with ticks := w.ticks + 1 }

def World.receiveChunk (w : World) (c : Nat) : World :=
  { w with chunks := c :: w.chunks }

def World.receivePhysicsUpdate (w : World) (u : Nat) : World :=
  { w with physics := u :: w.physics }

def World.receivePath (w : World) (p : Nat) : World :=
  { w with paths := p :: w.paths }

def World.save (w : World) : WorldSnapshot := ⟨none, w.seed, w.worldType⟩

def World.load (w : World) (snap : WorldSnapshot) : World :=
  { w with seed := snap.seed, worldType := snap.wtype }

/-- The construction-relevant identity of a World (everything except the
mutable tick/inbox bookkeeping): used to state that an operation does not
reconstruct the World. -/
def World.core (w : World) : (Nat × Nat × Nat) × Nat × Option Int × String × Option String × (Int × Int × Int) :=
  (w.worldSize, w.chunkSize, w.seed, w.worldType, w.generationChannel, w.spawnPoint)

/-- Player collaborator: position fixed at construction from the spawn point,
`update` records ticks. -/
structure Player where
  x : Int
  y : Int
  z : Int
  ticks : Nat
deriving DecidableEq, Repr

def Player.construct (spawn : Int × Int × Int) : Player :=
  ⟨spawn.1, spawn.2.1, spawn.2.2, 0⟩

def Player.update (p : Player) : Player := { p with ticks := p.ticks + 1 }

def Player.save (p : Player) : PlayerSnapshot := ⟨p.x, p.y, p.z⟩

def Player.load (p : Player) (snap : PlayerSnapshot) : Player :=
  { p with x := snap.x, y := snap.y, z := snap.z }

def Player.pos (p : Player) : Int × Int × Int := (p.x, p.y, p.z)

/-- Worker channels field `this.workers`: starts `{}` (all absent); each
channel is identified by the worker script it was created from (`new
Worker('js/workers/...')`, `src/main.js` lines 122-146). -/
structure WorkersState where
  worldGenerator : Option String
  physics : Option String
  pathfinding : Option String
deriving DecidableEq, Repr

/-- Observable calls the controller makes on its collaborators. -/
inductive Ev where
  | showMainMenu
  | showPauseMenu
  | hidePauseMenu
  | updateFPS (n : Nat)
  | uiUpdate
  | showMessage (s : String)
  | showError (s : String)
  | playMusic (t : String)
  | pauseMusic
  | resumeMusic
  | stopMusic
  | render (t : Nat)
  | rendererDispose
  | worldDispose
  | mpDisconnect
  | storageSave (r : SaveRecord)
  | storageLoad (id : Nat)
deriving DecidableEq, Repr

/-- A thrown TypeError from dereferencing a null `this.world`. -/
inductive Fault where
  | nullWorld
deriving DecidableEq, Repr

/-- Environment oracle: clock readings and collaborator outcomes for one
controller entry point. -/
structure Env where
  now : Nat
  dateNow : Nat
  spawn : Int × Int × Int
  mpSpawn : Int × Int × Int
  rendererOk : Bool
  connectOk : Bool
  worldOk : Bool
  storageOk : Bool
  loadResult : Option (Option SaveRecord)
deriving DecidableEq, Repr

/-- The controller state: fields of `BlockCraftAdventure` (`src/main.js`
lines 40-59) that the modelled methods read or write.  `renderer` is live
iff `isSome`; `mpConnected` models the MultiplayerManager's connection
state (the manager object itself is process-lifetime). -/
structure Game where
  state : GameState
  renderer : Option Unit
  world : Option World
  player : Option Player
  settings : Settings
  workers : WorkersState
  mpConnected : Bool
  lastTime : Nat
  frameCount : Nat
  fps : Nat
  fpsUpdateTime : Nat
  isGameRunning : Bool
deriving DecidableEq, Repr

/-- Constructor field initialisation (`src/main.js` lines 40-55):
state LOADING, all collaborator references null, clocks zero.
`isGameRunning` is never assigned in the constructor (undefined, falsy). -/
def Game.initial (settings : Settings) : Game :=
  { state := GameState.loading
    renderer := none
    world := none
    player := none
    settings := settings
    workers := ⟨none, none, none⟩
    mpConnected := false
    lastTime := 0
    frameCount := 0
    fps := 0
    fpsUpdateTime := 0
    isGameRunning := false }

/-- initWorkers (`src/main.js` lines 122-146): creates the three worker
channels and installs their message handlers (modelled below as the
`on...Message` functions). -/
def initWorkers (g : Game) : Game :=
  { g with workers :=
      ⟨some "js/workers/world-generator.js",
       some "js/workers/physics-worker.js",
       some "js/workers/pathfinding.js"⟩ }

/-- Handler installed on `workers.worldGenerator.onmessage` (`src/main.js`
lines 125-129): on tag `chunkGenerated` it calls
`this.world.receiveChunk(e.data.chunk)` with no null check on `this.world`;
any other tag falls through with no effect. -/
def onWorldGeneratorMessage (g : Game) (tag : String) (chunk : Nat) :
    Except Fault Game :=
  if tag = "chunkGenerated" then
    match g.world with
    | some w => Except.ok { g with world := some (w.receiveChunk chunk) }
    | none => Except.error Fault.nullWorld
  else
    Except.ok g

/-- Handler installed on `workers.physics.onmessage` (`src/main.js`
lines 133-137). -/
def onPhysicsMessage (g : Game) (tag : String) (update : Nat) :
    Except Fault Game :=
  if tag = "physicsUpdate" then
    match g.world with
    | some w => Except.ok { g with world := some (w.receivePhysicsUpdate update) }
    | none => Except.error Fault.nullWorld
  else
    Except.ok g

/-- Handler installed on `workers.pathfinding.onmessage` (`src/main.js`
lines 141-145). -/
def onPathfindingMessage (g : Game) (tag : String) (path : Nat) :
    Except Fault Game :=
  if tag = "pathFound" then
    match g.world with
    | some w => Except.ok { g with world := some (w.receivePath path) }
    | none => Except.error Fault.nullWorld
  else
    Except.ok g

/-- Result of one execution of `gameLoop` (`src/main.js` lines 351-394):
the new controller state, the collaborator calls made, and whether the pass
scheduled another pass via `requestAnimationFrame`. -/
structure PassResult where
  game : Game
  events : List Ev
  rescheduled : Bool
deriving DecidableEq, Repr

/-- gameLoop body (`src/main.js` lines 351-394), one pass.  It sets
`isGameRunning` to true at the top, advances the FPS sampling window
(handing the figure to the UI only when `showFPS` is enabled), updates
World then Player then Renderer then UI (each guarded by a null check),
and at the bottom reschedules iff `isGameRunning` is still true. -/
def gameLoopPass (env : Env) (g0 : Game) : PassResult :=
  let g1 := { g0 with isGameRunning := true }
  let currentTime := env.now
  let g2 := { g1 with lastTime := currentTime }
  let fc := g2.frameCount + 1
  let sample :=
    if 1000 ≤ currentTime - g2.fpsUpdateTime then
      ({ g2 with fps := fc, frameCount := 0, fpsUpdateTime := currentTime },
       if g2.settings.showFPS then [Ev.updateFPS fc] else [])
    else
      ({ g2 with frameCount := fc }, ([] : List Ev))
  let g3 := sample.1
  let g4 := { g3 with world := g3.world.map World.update }
  let g5 := { g4 with player := g4.player.map Player.update }
  let renderEvs := if g5.renderer.isSome then [Ev.render currentTime] else []
  ⟨g5, sample.2 ++ renderEvs ++ [Ev.uiUpdate], g5.isGameRunning⟩

/-- returnToMenu (`src/main.js` lines 317-349): clears `isGameRunning`,
stops audio, disposes and nulls the renderer, disposes and nulls the world,
disconnects multiplayer, shows the main menu.  The worker channels and the
`player` field are not touched. -/
def returnToMenu (g0 : Game) : Game × List Ev :=
  let g1 := { g0 with isGameRunning := false }
  let rendererPart :=
    match g1.renderer with
    | some _ => ({ g1 with renderer := none }, [Ev.rendererDispose])
    | none => (g1, ([] : List Ev))
  let g2 := rendererPart.1
  let worldPart :=
    match g2.world with
    | some _ => ({ g2 with world := none }, [Ev.worldDispose])
    | none => (g2, ([] : List Ev))
  let g3 := worldPart.1
  let g4 := { g3 with mpConnected := false }
  (g4, [Ev.stopMusic] ++ rendererPart.2 ++ worldPart.2 ++
        [Ev.mpDisconnect, Ev.showMainMenu])

/-- pauseGame (`src/main.js` lines 293-301): shows the pause menu and
pauses the music; the controller state is otherwise untouched (in
particular the frame loop is not stopped). -/
def pauseGame (g : Game) : Game × List Ev :=
  (g, [Ev.showPauseMenu, Ev.pauseMusic])

/-- resumeGame (`src/main.js` lines 303-315): hides the pause menu, resumes
the music, resets `lastTime` and invokes `gameLoop()` again. -/
def resumeGame (env : Env) (g : Game) : Game × List Ev :=
  let g1 := { g with lastTime := env.now }
  let pr := gameLoopPass env g1
  (pr.game, [Ev.hidePauseMenu, Ev.resumeMusic] ++ pr.events)

/-- startSinglePlayer (`src/main.js` lines 199-242).  The try block builds
the Renderer, the World (with the optional seed, the world type, and the
world-generator channel), the Player at the World's spawn point, wires
World to Player, starts the game loop, and plays music; `worldName` is only
logged.  On any throw the catch block shows an error and calls
`setState(MENU)` (state becomes menu, then teardown runs). -/
def startSinglePlayer (env : Env) (_worldName : Option String)
    (worldSeed : Option Int) (worldType : String) (g0 : Game) :
    Game × List Ev :=
  if env.rendererOk then
    let g1 := { g0 with renderer := some () }
    if env.worldOk then
      let w := World.construct (10000, 10000, 256) 16 worldSeed worldType
          g1.workers.worldGenerator env.spawn
      let g2 := { g1 with world := some w }
      let p := Player.construct w.getSpawnPoint
      let g3 := { g2 with player := some p }
      let g4 := { g3 with world := g3.world.map World.setPlayer }
      let g5 := { g4 with lastTime := env.now }
      let pr := gameLoopPass env g5
      (pr.game, pr.events ++ [Ev.playMusic "game"])
    else
      let gA := { g1 with state := GameState.menu }
      let fin := returnToMenu gA
      (fin.1, [Ev.showError "Failed to start game. Please try again."] ++ fin.2)
  else
    let gA := { g0 with state := GameState.menu }
    let fin := returnToMenu gA
    (fin.1, [Ev.showError "Failed to start game. Please try again."] ++ fin.2)

/-- startMultiplayer (`src/main.js` lines 244-291).  The try block builds
the Renderer, awaits `multiplayer.connect`, builds the Player at the
server-designated spawn point, builds the World (null seed, type
"multiplayer"), wires World to Player and to the multiplayer session,
starts the game loop, and plays music.  On any throw/reject the catch block
shows a connect error and calls `setState(MENU)`. -/
def startMultiplayer (env : Env) (_serverAddress : Option String)
    (g0 : Game) : Game × List Ev :=
  if env.rendererOk then
    let g1 := { g0 with renderer := some () }
    if env.connectOk then
      let g2 := { g1 with mpConnected := true }
      let p := Player.construct env.mpSpawn
      let g3 := { g2 with player := some p }
      if env.worldOk then
        let w := World.construct (10000, 10000, 256) 16 none "multiplayer"
            g3.workers.worldGenerator env.spawn
        let g4 := { g3 with world := some (World.setMultiplayer (World.setPlayer w)) }
        let g5 := { g4 with lastTime := env.now }
        let pr := gameLoopPass env g5
        (pr.game, pr.events ++ [Ev.playMusic "game"])
      else
        let gA := { g3 with state := GameState.menu }
        let fin := returnToMenu gA
        (fin.1, [Ev.showError "Failed to connect to server. Please try again."] ++ fin.2)
    else
      let gA := { g1 with state := GameState.menu }
      let fin := returnToMenu gA
      (fin.1, [Ev.showError "Failed to connect to server. Please try again."] ++ fin.2)
  else
    let gA := { g0 with state := GameState.menu }
    let fin := returnToMenu gA
    (fin.1, [Ev.showError "Failed to connect to server. Please try again."] ++ fin.2)

/-- setState (`src/main.js` lines 176-197): unconditionally assigns
`this.state = newState`, then dispatches the entry action for the new
state.  There is no transition table and no validation of the previous
state.  `startSinglePlayer` / `startMultiplayer` are invoked with no
arguments (all defaults). -/
def setState (env : Env) (newState : GameState) (g0 : Game) : Game × List Ev :=
  let g1 := { g0 with state := newState }
  match newState with
  | GameState.singlePlayer => startSinglePlayer env none none "default" g1
  | GameState.multiplayer => startMultiplayer env none g1
  | GameState.paused => pauseGame g1
  | GameState.menu => returnToMenu g1
  | GameState.loading => (g1, [])

/-- saveGame (`src/main.js` lines 396-415): only with a live World and
Player, snapshot world/player/settings with a `Date.now()` timestamp and
hand the record to `StorageManager.saveGame`; the promise result is
converted to a UI message (success) or UI error (rejection), never thrown. -/
def saveGame (env : Env) (g : Game) : Game × List Ev :=
  match g.world, g.player with
  | some w, some p =>
      let saveData : SaveRecord := ⟨w.save, p.save, g.settings.save, env.dateNow⟩
      if env.storageOk then
        (g, [Ev.storageSave saveData, Ev.showMessage "Game saved successfully!"])
      else
        (g, [Ev.storageSave saveData, Ev.showError "Failed to save game."])
  | _, _ => (g, [])

/-- loadGame (`src/main.js` lines 417-442): `StorageManager.loadGame(saveId)`
resolves to a record (apply settings, start a single-player session from the
record's world identity, then apply the player and world snapshots) or to
absence (UI error "Save file not found."); a rejection anywhere in the chain
is converted to the UI error "Failed to load game.".  Applying the snapshots
dereferences `this.player` / `this.world`, which the catch also absorbs when
the session entry failed and left them null. -/
def loadGame (env : Env) (saveId : Nat) (g0 : Game) : Game × List Ev :=
  match env.loadResult with
  | none => (g0, [Ev.storageLoad saveId, Ev.showError "Failed to load game."])
  | some none =>
      (g0, [Ev.storageLoad saveId, Ev.showError "Save file not found."])
  | some (some sd) =>
      let g1 := { g0 with settings := g0.settings.load sd.settings }
      let entry := startSinglePlayer env sd.world.name sd.world.seed
          sd.world.wtype g1
      let g2 := entry.1
      match g2.player, g2.world with
      | some p, some w =>
          let g3 := { g2 with player := some (p.load sd.player),
                              world := some (w.load sd.world) }
          (g3, [Ev.storageLoad saveId] ++ entry.2 ++
                [Ev.showMessage "Game loaded successfully!"])
      | _, _ =>
          (g2, [Ev.storageLoad saveId] ++ entry.2 ++
                [Ev.showError "Failed to load game."])

/-- Process a sequence of mode-transition requests through `setState`. -/
def processRequests (g : Game) : List (Env × GameState) → Game
  | [] => g
  | r :: rs => processRequests (setState r.1 r.2 g).1 rs

/-- Mode actually reached by one `setState` request: the requested target,
except that a failing SinglePlayer/Multiplayer entry falls back to menu. -/
def entryOutcome (env : Env) (s : GameState) : GameState :=
  match s with
  | GameState.singlePlayer =>
      if env.rendererOk && env.worldOk then s else GameState.menu
  | GameState.multiplayer =>
      if env.rendererOk && env.connectOk && env.worldOk then s else GameState.menu
  | _ => s

/-- States visited by repeated `gameLoop` passes: fold of `gameLoopPass`. -/
def runState : List Env → Game → Game
  | [], g => g
  | e :: es, g => runState es (gameLoopPass e g).game

/-- Whether a pass hands an FPS figure to the UI. -/
def isFPSEv : Ev → Bool
  | Ev.updateFPS _ => true
  | _ => false

/-- Whether one `gameLoop` pass from state `g` in environment `e` hands the
FPS figure to the UI. -/
def fpsEmitted (e : Env) (g : Game) : Bool :=
  (gameLoopPass e g).events.any isFPSEv

/-- Concrete environment: all collaborators succeed, clock at 5000 ms. -/
def env0 : Env :=
  { now := 5000, dateNow := 77, spawn := (1, 64, 2), mpSpawn := (3, 70, 4),
    rendererOk := true, connectOk := true, worldOk := true, storageOk := true,
    loadResult := none }

/-- Freshly constructed controller with workers initialised (the startup
sequence of `init`). -/
def g0 : Game := initWorkers (Game.initial ⟨false⟩)

/-- Controller after the automatic Loading → Menu transition. -/
def gMenu0 : Game := (setState env0 GameState.menu g0).1

/-- Controller after entering SinglePlayer from the menu. -/
def gPlay0 : Game := (setState env0 GameState.singlePlayer gMenu0).1

/-- Controller after quitting the single-player session back to the menu. -/
def gAfterQuit0 : Game := (setState env0 GameState.menu gPlay0).1

/-- Controller after requesting Paused from the running session. -/
def gPaused0 : Game := (setState env0 GameState.paused gPlay0).1

/-- The live World of `gPlay0` (one frame pass has run). -/
def wPlay0 : World :=
  ⟨(10000, 10000, 256), 16, none, "default",
   some "js/workers/world-generator.js", (1, 64, 2), true, false, [], [], [], 1⟩

/-- The live Player of `gPlay0` (one frame pass has run). -/
def pPlay0 : Player := ⟨1, 64, 2, 1⟩

/-- Fresh controller with the FPS display option enabled. -/
def gFps0 : Game := { g0 with settings := ⟨true⟩ }

/-- Environment reading the clock at 1000 ms. -/
def envA : Env := { env0 with now := 1000 }

/-- Environment reading the clock at 2000 ms. -/
def envB : Env := { env0 with now := 2000 }

/-- Environment in which the World constructor throws. -/
def envNoWorld : Env := { env0 with worldOk := false }

/-- Environment in which `multiplayer.connect` rejects. -/
def envNoConnect : Env := { env0 with connectOk := false }

/-- Environment in which `StorageManager.saveGame` rejects. -/
def envNoStorage : Env := { env0 with storageOk := false }

/-- Environment in which `StorageManager.loadGame` resolves to absence. -/
def envAbsent : Env := { env0 with loadResult := some none }

lemma gameLoopPass_state (e : Env) (g : Game) :
    (gameLoopPass e g).game.state = g.state := by
  unfold gameLoopPass
  dsimp only
  split <;> rfl

lemma gameLoopPass_workers (e : Env) (g : Game) :
    (gameLoopPass e g).game.workers = g.workers := by
  unfold gameLoopPass
  dsimp only
  split <;> rfl

lemma gameLoopPass_running (e : Env) (g : Game) :
    (gameLoopPass e g).game.isGameRunning = true := by
  unfold gameLoopPass
  dsimp only
  split <;> rfl

lemma gameLoopPass_rescheduled (e : Env) (g : Game) :
    (gameLoopPass e g).rescheduled = true := by
  unfold gameLoopPass
  dsimp only
  split <;> rfl

lemma gameLoopPass_renderer (e : Env) (g : Game) :
    (gameLoopPass e g).game.renderer = g.renderer := by
  unfold gameLoopPass
  dsimp only
  split <;> rfl

lemma gameLoopPass_world (e : Env) (g : Game) :
    (gameLoopPass e g).game.world = g.world.map World.update := by
  unfold gameLoopPass
  dsimp only
  split <;> rfl

lemma gameLoopPass_player (e : Env) (g : Game) :
    (gameLoopPass e g).game.player = g.player.map Player.update := by
  unfold gameLoopPass
  dsimp only
  split <;> rfl

lemma returnToMenu_state (g : Game) : (returnToMenu g).1.state = g.state := by
  unfold returnToMenu
  cases hr : g.renderer <;> cases hw : g.world <;> simp [hr, hw]

lemma returnToMenu_workers (g : Game) : (returnToMenu g).1.workers = g.workers := by
  unfold returnToMenu
  cases hr : g.renderer <;> cases hw : g.world <;> simp [hr, hw]

lemma returnToMenu_player (g : Game) : (returnToMenu g).1.player = g.player := by
  unfold returnToMenu
  cases hr : g.renderer <;> cases hw : g.world <;> simp [hr, hw]

lemma returnToMenu_renderer (g : Game) : (returnToMenu g).1.renderer = none := by
  unfold returnToMenu
  cases hr : g.renderer <;> cases hw : g.world <;> simp [hr, hw]

lemma returnToMenu_world (g : Game) : (returnToMenu g).1.world = none := by
  unfold returnToMenu
  cases hr : g.renderer <;> cases hw : g.world <;> simp [hr, hw]

lemma returnToMenu_running (g : Game) : (returnToMenu g).1.isGameRunning = false := by
  unfold returnToMenu
  cases hr : g.renderer <;> cases hw : g.world <;> simp [hr, hw]

lemma setState_state (env : Env) (s : GameState) (g : Game) :
    (setState env s g).1.state = entryOutcome env s := by
  cases s <;> simp only [setState, entryOutcome, pauseGame]
  case singlePlayer =>
    unfold startSinglePlayer
    cases hR : env.rendererOk <;> cases hW : env.worldOk <;>
      simp [hR, hW, gameLoopPass_state, returnToMenu_state]
  case multiplayer =>
    unfold startMultiplayer
    cases hR : env.rendererOk <;> cases hC : env.connectOk <;> cases hW : env.worldOk <;>
      simp [hR, hC, hW, gameLoopPass_state, returnToMenu_state]
  case menu =>
    simp [returnToMenu_state]

lemma fpsEmitted_iff (e : Env) (g : Game) :
    fpsEmitted e g = true ↔
      (g.settings.showFPS = true ∧ 1000 ≤ e.now - g.fpsUpdateTime) := by
  unfold fpsEmitted gameLoopPass
  dsimp only
  split <;> rename_i h <;> cases hs : g.settings.showFPS <;> simp [hs, isFPSEv, h]

lemma gameLoopPass_anchor_mono (e : Env) (g : Game) :
    g.fpsUpdateTime ≤ (gameLoopPass e g).game.fpsUpdateTime := by
  unfold gameLoopPass
  dsimp only
  split
  · rename_i h
    have : g.fpsUpdateTime ≤ e.now := by omega
    simpa using this
  · simp

lemma gameLoopPass_anchor_emit (e : Env) (g : Game) (h : fpsEmitted e g = true) :
    (gameLoopPass e g).game.fpsUpdateTime = e.now := by
  rw [fpsEmitted_iff] at h
  unfold gameLoopPass
  dsimp only
  split
  · rfl
  · rename_i hc
    exact absurd h.2 hc

lemma runState_anchor_mono (es : List Env) (g : Game) :
    g.fpsUpdateTime ≤ (runState es g).fpsUpdateTime := by
  induction es generalizing g with
  | nil => exact Nat.le_refl _
  | cons e es ih =>
      exact Nat.le_trans (gameLoopPass_anchor_mono e g) (ih _)

lemma runState_append (xs ys : List Env) (g : Game) :
    runState (xs ++ ys) g = runState ys (runState xs g) := by
  induction xs generalizing g with
  | nil => rfl
  | cons x xs ih => simp [runState, ih]

lemma fps_gap (g : Game) (pre mid : List Env) (e1 e2 : Env)
    (h1 : fpsEmitted e1 (runState pre g) = true)
    (h2 : fpsEmitted e2 (runState (pre ++ e1 :: mid) g) = true) :
    e1.now + 1000 ≤ e2.now := by
  have hsplit : runState (pre ++ e1 :: mid) g =
      runState mid (gameLoopPass e1 (runState pre g)).game := by
    rw [runState_append]
    rfl
  have hA : (gameLoopPass e1 (runState pre g)).game.fpsUpdateTime = e1.now :=
    gameLoopPass_anchor_emit _ _ h1
  have hM : (gameLoopPass e1 (runState pre g)).game.fpsUpdateTime ≤
      (runState mid (gameLoopPass e1 (runState pre g)).game).fpsUpdateTime :=
    runState_anchor_mono _ _
  rw [fpsEmitted_iff] at h2
  rw [hsplit] at h2
  omega

lemma fps_count (e : Env) (g : Game) :
    ((gameLoopPass e g).events.filter isFPSEv).length ≤ 1 ∧
      (((gameLoopPass e g).events.filter isFPSEv).length = 1 ↔ fpsEmitted e g = true) := by
  unfold fpsEmitted gameLoopPass
  dsimp only
  split <;> rename_i h <;> cases hs : g.settings.showFPS <;>
    cases hr : g.renderer <;> simp [hs, isFPSEv, h, hr]

lemma startSinglePlayer_workers (env : Env) (nm : Option String)
    (sd : Option Int) (t : String) (g : Game) :
    (startSinglePlayer env nm sd t g).1.workers = g.workers := by
  unfold startSinglePlayer
  cases hR : env.rendererOk <;> cases hW : env.worldOk <;>
    simp [hR, hW, gameLoopPass_workers, returnToMenu_workers]

lemma startMultiplayer_workers (env : Env) (addr : Option String) (g : Game) :
    (startMultiplayer env addr g).1.workers = g.workers := by
  unfold startMultiplayer
  cases hR : env.rendererOk <;> cases hC : env.connectOk <;> cases hW : env.worldOk <;>
    simp [hR, hC, hW, gameLoopPass_workers, returnToMenu_workers]

lemma setState_workers (env : Env) (s : GameState) (g : Game) :
    (setState env s g).1.workers = g.workers := by
  cases s <;>
    simp [setState, pauseGame, startSinglePlayer_workers, startMultiplayer_workers,
      returnToMenu_workers]

lemma resumeGame_workers (env : Env) (g : Game) :
    (resumeGame env g).1.workers = g.workers := by
  simpa [resumeGame] using gameLoopPass_workers env { g with lastTime := env.now }

lemma saveGame_fst (env : Env) (g : Game) : (saveGame env g).1 = g := by
  unfold saveGame
  cases hw : g.world <;> cases hp : g.player <;> cases hs : env.storageOk <;> simp

lemma loadGame_workers (env : Env) (saveId : Nat) (g : Game) :
    (loadGame env saveId g).1.workers = g.workers := by
  unfold loadGame
  cases hl : env.loadResult with
  | none => simp
  | some r =>
      cases r with
      | none => simp
      | some sd =>
          dsimp only
          cases hp : (startSinglePlayer env sd.world.name sd.world.seed sd.world.wtype
              { g with settings := g.settings.load sd.settings }).1.player <;>
            cases hw : (startSinglePlayer env sd.world.name sd.world.seed sd.world.wtype
              { g with settings := g.settings.load sd.settings }).1.world <;>
            simp [hp, hw, startSinglePlayer_workers]

/-- C1 counterexample: a request for the pair Loading → Paused, which has no
transition-table entry, is not a no-op: `setState` assigns the requested mode
unconditionally, so the current mode becomes Paused instead of staying
Loading. -/
theorem c1_counterexample :
    g0.state = GameState.loading ∧
    (setState env0 GameState.paused g0).1.state = GameState.paused :=
  ⟨rfl, rfl⟩

/-- C1 (amended): `setState` performs no transition validation; after any
sequence of requests the current mode equals the target of the last request,
except that a failing SinglePlayer/Multiplayer entry action falls back to
Menu (`entryOutcome`).  Requests for pairs without a spec transition-table
entry are applied like any others, not ignored. -/
theorem c1_last_request_decides_mode (g : Game) (rs : List (Env × GameState))
    (r : Env × GameState) :
    (processRequests g (rs ++ [r])).state = entryOutcome r.1 r.2 := by
  induction rs generalizing g with
  | nil => simpa [processRequests] using setState_state r.1 r.2 g
  | cons a rs ih => simpa [processRequests] using ih _

/-- C2 counterexample: after teardown to Menu (`gAfterQuit0.world = none`), an
inbound `chunkGenerated` worker message is not dropped silently — the handler
dereferences the null world and raises a TypeError fault. -/
theorem c2_counterexample :
    gAfterQuit0.world = none ∧
    onWorldGeneratorMessage gAfterQuit0 "chunkGenerated" 7 =
      Except.error Fault.nullWorld :=
  ⟨rfl, rfl⟩

/-- C2 (amended): when no live World exists, an inbound worker message whose
tag matches the handler's expected kind raises a null-dereference fault (the
handler calls `this.world.receive...` without a null check); a message with
any other tag is dropped with the state unchanged.  In the fault case the
handler has written nothing, so the controller state — and hence subsequent
session construction — is unaffected. -/
theorem c2_no_world_message_faults (g : Game) (c u q : Nat) (tag : String)
    (h : g.world = none) :
    onWorldGeneratorMessage g "chunkGenerated" c = Except.error Fault.nullWorld ∧
    onPhysicsMessage g "physicsUpdate" u = Except.error Fault.nullWorld ∧
    onPathfindingMessage g "pathFound" q = Except.error Fault.nullWorld ∧
    (tag ≠ "chunkGenerated" → onWorldGeneratorMessage g tag c = Except.ok g) ∧
    (tag ≠ "physicsUpdate" → onPhysicsMessage g tag u = Except.ok g) ∧
    (tag ≠ "pathFound" → onPathfindingMessage g tag q = Except.ok g) :=
  ⟨by simp [onWorldGeneratorMessage, h],
   by simp [onPhysicsMessage, h],
   by simp [onPathfindingMessage, h],
   fun ht => by simp [onWorldGeneratorMessage, ht],
   fun ht => by simp [onPhysicsMessage, ht],
   fun ht => by simp [onPathfindingMessage, ht]⟩

/-- C2 witness: the amended statement at the concrete post-teardown state with
an unroutable tag. -/
theorem c2_no_world_message_faults_witness :
    gAfterQuit0.world = none ∧
    (onWorldGeneratorMessage gAfterQuit0 "chunkGenerated" 1 = Except.error Fault.nullWorld ∧
     onPhysicsMessage gAfterQuit0 "physicsUpdate" 2 = Except.error Fault.nullWorld ∧
     onPathfindingMessage gAfterQuit0 "pathFound" 3 = Except.error Fault.nullWorld ∧
     ("bogus" ≠ "chunkGenerated" → onWorldGeneratorMessage gAfterQuit0 "bogus" 1 = Except.ok gAfterQuit0) ∧
     ("bogus" ≠ "physicsUpdate" → onPhysicsMessage gAfterQuit0 "bogus" 2 = Except.ok gAfterQuit0) ∧
     ("bogus" ≠ "pathFound" → onPathfindingMessage gAfterQuit0 "bogus" 3 = Except.ok gAfterQuit0)) :=
  ⟨rfl, c2_no_world_message_faults gAfterQuit0 1 2 3 "bogus" rfl⟩

/-- C3 counterexample: after requesting Paused from the running single-player
session, the mode is Paused and the session is intact, but the frame loop has
not been stopped: `isGameRunning` is still true and the already-queued frame
pass executes and reschedules itself, so the Frame Scheduler keeps producing
passes while paused. -/
theorem c3_counterexample :
    gPaused0.state = GameState.paused ∧
    gPaused0.renderer.isSome = true ∧
    gPaused0.world.isSome = true ∧
    gPaused0.player.isSome = true ∧
    gPaused0.isGameRunning = true ∧
    (gameLoopPass env0 gPaused0).rescheduled = true := by
  decide

/-- C3 (amended): a pause request in a play mode changes exactly the mode
field — the SessionContext (renderer, world, player) stays intact, but the
running flag is also untouched, so frame passes continue to be produced while
paused; `resumeGame` restarts the loop from the current context without
reconstructing Renderer, World, or Player (their construction identities are
preserved). -/
theorem c3_pause_keeps_session_and_loop (env : Env) (g : Game) :
    (setState env GameState.paused g).1 = { g with state := GameState.paused } ∧
    (resumeGame env g).1.renderer = g.renderer ∧
    (resumeGame env g).1.world.map World.core = g.world.map World.core ∧
    (resumeGame env g).1.player.map Player.pos = g.player.map Player.pos ∧
    (resumeGame env g).1.isGameRunning = true := by
  refine ⟨rfl, ?_, ?_, ?_, ?_⟩
  · simpa [resumeGame] using gameLoopPass_renderer env { g with lastTime := env.now }
  · have h := gameLoopPass_world env { g with lastTime := env.now }
    simp only [resumeGame]
    rw [h]
    cases g.world <;> simp [World.core, World.update]
  · have h := gameLoopPass_player env { g with lastTime := env.now }
    simp only [resumeGame]
    rw [h]
    cases g.player <;> simp [Player.pos, Player.update]
  · simpa [resumeGame] using gameLoopPass_running env { g with lastTime := env.now }

/-- C4 counterexample: Multiplayer entry from Menu in which a collaborator
construction throws (the World constructor, after `connect` has resolved and
the Player has been constructed).  The mode falls back to Menu, the UI gets
the error, Renderer and World are cleared — but the freshly constructed
Player is still allocated, because teardown never clears `this.player`. -/
theorem c4_counterexample :
    (setState envNoWorld GameState.multiplayer gMenu0).1.state = GameState.menu ∧
    Ev.showError "Failed to connect to server. Please try again." ∈
      (setState envNoWorld GameState.multiplayer gMenu0).2 ∧
    (setState envNoWorld GameState.multiplayer gMenu0).1.renderer = none ∧
    (setState envNoWorld GameState.multiplayer gMenu0).1.world = none ∧
    gMenu0.player = none ∧
    (setState envNoWorld GameState.multiplayer gMenu0).1.player.isSome = true := by
  decide

/-- C4 (amended): when the multiplayer connect rejects during session entry,
the state machine falls back to Menu, the UI receives an error message, and
the Renderer and World references are disposed and cleared; the `player`
reference, however, is not cleared by teardown (it keeps whatever value it
had, and a Player constructed before the failing step stays allocated). -/
theorem c4_entry_failure_fallback (env : Env) (g : Game)
    (hr : env.rendererOk = true) (hc : env.connectOk = false) :
    (setState env GameState.multiplayer g).1.state = GameState.menu ∧
    Ev.showError "Failed to connect to server. Please try again." ∈
      (setState env GameState.multiplayer g).2 ∧
    (setState env GameState.multiplayer g).1.renderer = none ∧
    (setState env GameState.multiplayer g).1.world = none ∧
    (setState env GameState.multiplayer g).1.player = g.player := by
  simp only [setState, startMultiplayer, hr, hc]
  refine ⟨?_, ?_, ?_, ?_, ?_⟩ <;>
    simp [returnToMenu_state, returnToMenu_renderer, returnToMenu_world,
      returnToMenu_player]

/-- C4 witness: the amended statement at a concrete connect failure issued
after a previous session was quit (whose Player is still allocated). -/
theorem c4_entry_failure_fallback_witness :
    envNoConnect.rendererOk = true ∧ envNoConnect.connectOk = false ∧
    ((setState envNoConnect GameState.multiplayer gAfterQuit0).1.state = GameState.menu ∧
     Ev.showError "Failed to connect to server. Please try again." ∈
       (setState envNoConnect GameState.multiplayer gAfterQuit0).2 ∧
     (setState envNoConnect GameState.multiplayer gAfterQuit0).1.renderer = none ∧
     (setState envNoConnect GameState.multiplayer gAfterQuit0).1.world = none ∧
     (setState envNoConnect GameState.multiplayer gAfterQuit0).1.player = gAfterQuit0.player) :=
  ⟨rfl, rfl, c4_entry_failure_fallback envNoConnect gAfterQuit0 rfl rfl⟩

/-- C5 counterexample: there is no single request path that both sets the
mode and carries the seed.  At the concrete input: the seed-carrying call
`startSinglePlayer(name, 42, type)` from Menu leaves the mode at Menu (it
never assigns `this.state`), while the mode-changing request
`setState(SINGLE_PLAYER)` invokes `startSinglePlayer()` with no arguments,
so the World is constructed with a null seed rather than 42. -/
theorem c5_counterexample :
    gMenu0.state = GameState.menu ∧
    (startSinglePlayer env0 (some "New World") (some 42) "default" gMenu0).1.state =
      GameState.menu ∧
    (setState env0 GameState.singlePlayer gMenu0).1.world.map World.seed =
      some none := by
  decide

/-- C5 (amended): a successful direct `startSinglePlayer(name, seed, type)`
call constructs the World with the requested seed, constructs the Player at
the World's designated spawn point, and starts the Frame Scheduler
(`isGameRunning` becomes true) — but leaves the mode unchanged; the
mode-changing request `setState(SINGLE_PLAYER)` calls `startSinglePlayer`
with no arguments, so the World it constructs has a null seed. -/
theorem c5_start_single_player (env : Env) (g : Game) (nm : Option String)
    (sd : Option Int) (t : String)
    (hr : env.rendererOk = true) (hw : env.worldOk = true) :
    (startSinglePlayer env nm sd t g).1.world.map World.seed = some sd ∧
    (startSinglePlayer env nm sd t g).1.world.map World.getSpawnPoint =
      some env.spawn ∧
    (startSinglePlayer env nm sd t g).1.player.map Player.pos = some env.spawn ∧
    (startSinglePlayer env nm sd t g).1.isGameRunning = true ∧
    (startSinglePlayer env nm sd t g).1.state = g.state ∧
    (setState env GameState.singlePlayer g).1.world.map World.seed = some none := by
  have main : ∀ (g' : Game) (nm' : Option String) (sd' : Option Int) (t' : String),
      (startSinglePlayer env nm' sd' t' g').1.world.map World.seed = some sd' ∧
      (startSinglePlayer env nm' sd' t' g').1.world.map World.getSpawnPoint =
        some env.spawn ∧
      (startSinglePlayer env nm' sd' t' g').1.player.map Player.pos = some env.spawn ∧
      (startSinglePlayer env nm' sd' t' g').1.isGameRunning = true ∧
      (startSinglePlayer env nm' sd' t' g').1.state = g'.state := by
    intro g' nm' sd' t'
    simp only [startSinglePlayer, hr, hw, if_true]
    refine ⟨?_, ?_, ?_, ?_, ?_⟩
    · rw [gameLoopPass_world]
      simp [World.construct, World.setPlayer, World.update]
    · rw [gameLoopPass_world]
      simp [World.construct, World.setPlayer, World.update, World.getSpawnPoint]
    · rw [gameLoopPass_player]
      simp [World.construct, World.setPlayer, World.getSpawnPoint,
        Player.construct, Player.update, Player.pos]
    · exact gameLoopPass_running _ _
    · rw [gameLoopPass_state]
  refine ⟨(main g nm sd t).1, (main g nm sd t).2.1, (main g nm sd t).2.2.1,
    (main g nm sd t).2.2.2.1, (main g nm sd t).2.2.2.2, ?_⟩
  simpa [setState] using
    (main { g with state := GameState.singlePlayer } none none "default").1

/-- C5 witness: the amended statement at the concrete seed-42 request from
the menu. -/
theorem c5_start_single_player_witness :
    env0.rendererOk = true ∧ env0.worldOk = true ∧
    ((startSinglePlayer env0 (some "New World") (some 42) "default" gMenu0).1.world.map World.seed = some (some 42) ∧
     (startSinglePlayer env0 (some "New World") (some 42) "default" gMenu0).1.world.map World.getSpawnPoint = some env0.spawn ∧
     (startSinglePlayer env0 (some "New World") (some 42) "default" gMenu0).1.player.map Player.pos = some env0.spawn ∧
     (startSinglePlayer env0 (some "New World") (some 42) "default" gMenu0).1.isGameRunning = true ∧
     (startSinglePlayer env0 (some "New World") (some 42) "default" gMenu0).1.state = gMenu0.state ∧
     (setState env0 GameState.singlePlayer gMenu0).1.world.map World.seed = some none) :=
  ⟨rfl, rfl, c5_start_single_player env0 gMenu0 (some "New World") (some 42) "default" rfl rfl⟩

/-- C6: the FPS figure is handed to the UI at most once per frame pass, a
pass hands it over exactly when the display option is enabled and a full
one-second window has elapsed since the sampling anchor, the figure is only
ever handed over with the option enabled, and any two passes that both hand
the figure to the UI are at least 1000 ms apart — so each elapsed one-second
window produces exactly one update no matter how many passes fall inside
it. -/
theorem c6_fps_once_per_window (g : Game) (pre mid : List Env) (e1 e2 e : Env) :
    (fpsEmitted e1 (runState pre g) = true →
      fpsEmitted e2 (runState (pre ++ e1 :: mid) g) = true →
      e1.now + 1000 ≤ e2.now) ∧
    (fpsEmitted e g = true → g.settings.showFPS = true) ∧
    ((gameLoopPass e g).events.filter isFPSEv).length ≤ 1 ∧
    (((gameLoopPass e g).events.filter isFPSEv).length = 1 ↔
      (g.settings.showFPS = true ∧ 1000 ≤ e.now - g.fpsUpdateTime)) :=
  ⟨fun h1 h2 => fps_gap g pre mid e1 e2 h1 h2,
   fun h => ((fpsEmitted_iff e g).1 h).1,
   (fps_count e g).1,
   (fps_count e g).2.trans (fpsEmitted_iff e g)⟩

/-- C6 witness: two consecutive emitting passes at 1000 ms and 2000 ms with
the option enabled are exactly one window apart. -/
theorem c6_fps_once_per_window_witness :
    fpsEmitted envA (runState [] gFps0) = true ∧
    fpsEmitted envB (runState ([] ++ envA :: []) gFps0) = true ∧
    envA.now + 1000 ≤ envB.now :=
  ⟨by decide, by decide,
   (c6_fps_once_per_window gFps0 [] [] envA envB envA).1 (by decide) (by decide)⟩

/-- C7: with a live World and Player, `saveGame` hands Storage a record whose
world/player/settings snapshots are those of the live collaborators (built
totally, hence non-null) and whose timestamp is the `Date.now()` reading at
the call; the controller state is unchanged in every outcome, and a storage
rejection is converted into a UI error message rather than thrown. -/
theorem c7_save_round_trip (env : Env) (g : Game) (w : World) (p : Player)
    (hw : g.world = some w) (hp : g.player = some p) :
    (saveGame env g).1 = g ∧
    (∃ sd : SaveRecord,
      Ev.storageSave sd ∈ (saveGame env g).2 ∧
      sd.world = w.save ∧ sd.player = p.save ∧
      sd.settings = g.settings.save ∧ env.dateNow ≤ sd.timestamp) ∧
    (env.storageOk = false →
      Ev.showError "Failed to save game." ∈ (saveGame env g).2) := by
  refine ⟨saveGame_fst env g, ?_, ?_⟩
  · refine ⟨⟨w.save, p.save, g.settings.save, env.dateNow⟩, ?_, rfl, rfl, rfl, Nat.le_refl _⟩
    unfold saveGame
    rw [hw, hp]
    cases hs : env.storageOk <;> simp
  · intro hs
    unfold saveGame
    rw [hw, hp]
    simp [hs]

/-- C7 witness: the statement at the live session `gPlay0` with a rejecting
storage collaborator. -/
theorem c7_save_round_trip_witness :
    gPlay0.world = some wPlay0 ∧ gPlay0.player = some pPlay0 ∧
    ((saveGame envNoStorage gPlay0).1 = gPlay0 ∧
     (∃ sd : SaveRecord,
       Ev.storageSave sd ∈ (saveGame envNoStorage gPlay0).2 ∧
       sd.world = wPlay0.save ∧ sd.player = pPlay0.save ∧
       sd.settings = gPlay0.settings.save ∧ envNoStorage.dateNow ≤ sd.timestamp) ∧
     (envNoStorage.storageOk = false →
       Ev.showError "Failed to save game." ∈ (saveGame envNoStorage gPlay0).2)) :=
  ⟨by decide, by decide,
   c7_save_round_trip envNoStorage gPlay0 wPlay0 pPlay0 (by decide) (by decide)⟩

/-- C8: when the storage collaborator resolves to absence, `loadGame` reports
the user-visible "not found" message and returns the controller state exactly
as it was: no Renderer, World, or Player is created or changed. -/
theorem c8_load_absent_no_mutation (env : Env) (g : Game) (saveId : Nat)
    (h : env.loadResult = some none) :
    loadGame env saveId g =
      (g, [Ev.storageLoad saveId, Ev.showError "Save file not found."]) := by
  unfold loadGame
  rw [h]

/-- C8 witness: the statement at the concrete menu state with an absent
record. -/
theorem c8_load_absent_no_mutation_witness :
    envAbsent.loadResult = some none ∧
    loadGame envAbsent 5 gMenu0 =
      (gMenu0, [Ev.storageLoad 5, Ev.showError "Save file not found."]) :=
  ⟨rfl, c8_load_absent_no_mutation envAbsent gMenu0 5 rfl⟩

/-- C9: the three worker channels are created by `initWorkers` at startup
(one channel per task kind, identified by its worker script) and every
controller operation — every mode transition through `setState`, teardown,
frame passes, pause/resume, save and load — leaves the `workers` field
unchanged: the channels are never recreated or disposed. -/
theorem c9_worker_channels_persist (env : Env) (g : Game) (s : GameState)
    (idn : Nat) (nm addr : Option String) (sd : Option Int) (t : String) :
    (initWorkers g).workers =
      ⟨some "js/workers/world-generator.js", some "js/workers/physics-worker.js",
       some "js/workers/pathfinding.js"⟩ ∧
    (setState env s g).1.workers = g.workers ∧
    (returnToMenu g).1.workers = g.workers ∧
    (gameLoopPass env g).game.workers = g.workers ∧
    (resumeGame env g).1.workers = g.workers ∧
    (saveGame env g).1.workers = g.workers ∧
    (loadGame env idn g).1.workers = g.workers ∧
    (startSinglePlayer env nm sd t g).1.workers = g.workers ∧
    (startMultiplayer env addr g).1.workers = g.workers :=
  ⟨rfl, setState_workers env s g, returnToMenu_workers g,
   gameLoopPass_workers env g, resumeGame_workers env g,
   by rw [saveGame_fst], loadGame_workers env idn g,
   startSinglePlayer_workers env nm sd t g, startMultiplayer_workers env addr g⟩

/-- C10: `gameLoop` sets `isGameRunning` to true at the top of every pass and
only consults it at the bottom, so every single pass — including one whose
callback was already queued when `returnToMenu` cleared the flag — ends with
the flag true and reschedules itself: after a quit it is not the case that no
further frame passes occur. -/
theorem c10_queued_pass_restarts_loop (env : Env) (g : Game) :
    (returnToMenu g).1.isGameRunning = false ∧
    (gameLoopPass env (returnToMenu g).1).game.isGameRunning = true ∧
    (gameLoopPass env (returnToMenu g).1).rescheduled = true :=
  ⟨returnToMenu_running g, gameLoopPass_running _ _, gameLoopPass_rescheduled _ _⟩
